import Mathlib

/-!
Verification of the CH340 USB-serial control engine (src/ch340.c).

This file is a shallow embedding of the driver's control-path functions:
machine integers are modelled as `Nat` with explicit masking/wrapping where
the C types make overflow or truncation observable; USB control transfers
are modelled through a device oracle (`Dev`) that supplies the outcome of
each transfer, and every operation additionally returns the list of
transfers it issued (`List Xfer`), so that "no transfer is performed" and
"which payload was written" are provable statements.
-/

/-! ## Constants (the `#define`s of ch340.c) -/

def CH340_BIT_RTS : Nat := 1 <<< 6
def CH340_BIT_DTR : Nat := 1 <<< 5

def CH340_MULT_STAT : Nat := 0x04

def CH340_BIT_CTS : Nat := 0x01
def CH340_BIT_DSR : Nat := 0x02
def CH340_BIT_RI : Nat := 0x04
def CH340_BIT_DCD : Nat := 0x08
def CH340_BITS_MODEM_STAT : Nat := 0x0f

def CH340_BAUDBASE_FACTOR : Nat := 6000000
def CH340_BAUDBASE_DIVMAX : Nat := 3

def CH340_REQ_READ_VERSION : Nat := 0x5F
def CH340_REQ_WRITE_REG : Nat := 0x9A
def CH340_REQ_READ_REG : Nat := 0x95
def CH340_REQ_SERIAL_INIT : Nat := 0xA1
def CH340_REQ_MODEM_CTRL : Nat := 0xA4

def CH340_REG_BREAK : Nat := 0x05
def CH340_REG_LCR : Nat := 0x18
def CH340_NBREAK_BITS : Nat := 0x01

def CH340_LCR_ENABLE_RX : Nat := 0x80
def CH340_LCR_ENABLE_TX : Nat := 0x40
def CH340_LCR_MARK_SPACE : Nat := 0x20
def CH340_LCR_PAR_EVEN : Nat := 0x10
def CH340_LCR_ENABLE_PAR : Nat := 0x08
def CH340_LCR_STOP_BITS_2 : Nat := 0x04
def CH340_LCR_CS8 : Nat := 0x03
def CH340_LCR_CS7 : Nat := 0x02
def CH340_LCR_CS6 : Nat := 0x01
def CH340_LCR_CS5 : Nat := 0x00

def DEFAULT_BAUD_RATE : Nat := 9600

/-- `2^32`, the modulus of C `unsigned int` arithmetic. -/
def U32 : Nat := 4294967296

/-! ## Baud/frame synthesizer (pure core of `ch340_set_baudrate_lcr`) -/

/-- The kernel's `DIV_ROUND_CLOSEST(x, d)` for unsigned operands:
`(x + d / 2) / d`. -/
def DIV_ROUND_CLOSEST (x d : Nat) : Nat := (x + d / 2) / d

/-- The divisor-shrinking loop of `ch340_set_baudrate_lcr`:
`while ((factor > 0xff) && divisor) { factor >>= 3; divisor--; div <<= 3; }`.
Structural recursion on `divisor` (which the loop strictly decreases);
returns the final `(factor, divisor, div)`. -/
def shrink (factor : Nat) (divisor : Nat) (div : Nat) : Nat × Nat × Nat :=
  match divisor with
  | 0 => (factor, 0, div)
  | d + 1 =>
    if 0xff < factor then shrink (factor >>> 3) d (div <<< 3)
    else (factor, d + 1, div)

/-- One candidate of the synthesizer: the `(factor, divisor, div)` triple
obtained from a base clock. -/
structure Cand where
  factor : Nat
  divisor : Nat
  div : Nat
deriving DecidableEq

/-- Candidate computation for a given base clock (`CH340_BAUDBASE_FACTOR`
for the single-clock pass, twice that for the x2 pass):
`factor = DIV_ROUND_CLOSEST(base, baud); divisor = CH340_BAUDBASE_DIVMAX;
div = 1;` followed by the shrink loop. -/
def mkCand (base baud : Nat) : Cand :=
  let f := DIV_ROUND_CLOSEST base baud
  let s := shrink f CH340_BAUDBASE_DIVMAX 1
  ⟨s.1, s.2.1, s.2.2⟩

/-- `res = DIV_ROUND_CLOSEST(base, factor * div)`: the baud rate the
candidate actually achieves. -/
def candRes (base : Nat) (c : Cand) : Nat := DIV_ROUND_CLOSEST base (c.factor * c.div)

/-- `diff = (res > baud) ? (res - baud) : (baud - res)`: the candidate's
absolute deviation from the requested rate. -/
def candDiff (base baud : Nat) (c : Cand) : Nat :=
  let res := candRes base c
  if baud < res then res - baud else baud - res

/-- The `(best_factor, best_divisor, x2)` selection state of
`ch340_set_baudrate_lcr` after both passes. -/
structure BaudPlan where
  factor : Nat
  divisor : Nat
  x2 : Bool
deriving DecidableEq

/-- Candidate selection of `ch340_set_baudrate_lcr`: the single-clock
candidate is the baseline; the double-clock candidate is examined only when
its `factor > 8` and replaces the baseline only when its `diff` is strictly
smaller. -/
def synthPlan (baud : Nat) : BaudPlan :=
  let c1 := mkCand CH340_BAUDBASE_FACTOR baud
  let d1 := candDiff CH340_BAUDBASE_FACTOR baud c1
  let c2 := mkCand (CH340_BAUDBASE_FACTOR * 2) baud
  if 8 < c2.factor then
    let d2 := candDiff (CH340_BAUDBASE_FACTOR * 2) baud c2
    if d2 < d1 then ⟨c2.factor, c2.divisor, true⟩
    else ⟨c1.factor, c1.divisor, false⟩
  else ⟨c1.factor, c1.divisor, false⟩

/-- Deviation of the single-clock candidate. -/
def diff1 (baud : Nat) : Nat :=
  candDiff CH340_BAUDBASE_FACTOR baud (mkCand CH340_BAUDBASE_FACTOR baud)

/-- Deviation of the double-clock candidate. -/
def diff2 (baud : Nat) : Nat :=
  candDiff (CH340_BAUDBASE_FACTOR * 2) baud (mkCand (CH340_BAUDBASE_FACTOR * 2) baud)

/-- `factor` of the double-clock candidate (the `> 8` admission test is on
this value). -/
def factor2 (baud : Nat) : Nat := (mkCand (CH340_BAUDBASE_FACTOR * 2) baud).factor

/-- Deviation achieved by the plan the code selects. -/
def planDiff (baud : Nat) : Nat :=
  if (synthPlan baud).x2 then diff2 baud else diff1 baud

/-- `factor = 0x100 - best_factor` computed in C `unsigned int` arithmetic
(wraps modulo `2^32` when `best_factor` exceeds `0x100`). -/
def byteFactor (baud : Nat) : Nat := (0x100 + U32 - (synthPlan baud).factor) % U32

/-- The 16-bit register payload `a`:
`a = (factor << 8) | best_divisor | (x2 << 2); a |= BIT(7);`.
(`a` is declared `short` in C but its low 16 bits — all that the u16
`index` argument of the control transfer keeps — equal this value, since
`factor ≤ 0xfe` whenever the payload is sent.) -/
def baudPayload (baud : Nat) : Nat :=
  (byteFactor baud <<< 8) ||| (synthPlan baud).divisor |||
    (if (synthPlan baud).x2 then 1 <<< 2 else 0) ||| (1 <<< 7)

/-! ## Control channel model -/

/-- One USB control transfer as issued by `ch340_control_out` /
`ch340_control_in`: direction, vendor request code, the 16-bit `value` and
`index` arguments, and the data-phase length. -/
structure Xfer where
  isOut : Bool
  request : Nat
  value : Nat
  index : Nat
  len : Nat
deriving DecidableEq

/-- Device oracle: `outResp request value index` is the value
`usb_control_msg` returns for an OUT transfer (0 on success for the
zero-length transfers the driver issues, negative errno on transport
failure); `inResp request value index bufsize` is the return value together
with the bytes placed in the caller's buffer for an IN transfer. -/
structure Dev where
  outResp : Nat → Nat → Nat → Int
  inResp : Nat → Nat → Nat → Nat → Int × List Nat

/-- `ch340_control_out`: issues the OUT transfer and returns
`usb_control_msg`'s result unchanged. -/
def ch340_control_out (dev : Dev) (request value index : Nat) : Int × List Xfer :=
  (dev.outResp request value index, [⟨true, request, value, index, 0⟩])

/-- `ch340_control_in`: issues the IN transfer; a transport failure
(`r < 0`) propagates unchanged, a short read (`0 ≤ r < bufsize`) is
converted to `-EIO` (= -5), a full-length reply yields 0.  Returns the
result, the received bytes, and the transfer issued. -/
def ch340_control_in (dev : Dev) (request value index bufsize : Nat) :
    Int × List Nat × List Xfer :=
  let rb := dev.inResp request value index bufsize
  let t : List Xfer := [⟨false, request, value, index, bufsize⟩]
  if rb.1 < (bufsize : Int) then
    (if 0 ≤ rb.1 then (-5 : Int) else rb.1, rb.2, t)
  else ((0 : Int), rb.2, t)

/-! ## Line state (`struct ch340_private`) -/

/-- `struct ch340_private` without the spinlock: the lock serializes the
field accesses in C; here every operation is a function from the record to
the record, which realizes the same serialization. -/
structure Priv where
  baud_rate : Nat
  mcr : Nat
  msr : Nat
  lcr : Nat
deriving DecidableEq

/-- The state `ch340_port_probe` installs: `kzalloc` zeroes `mcr`/`msr`,
then `baud_rate = DEFAULT_BAUD_RATE` and `lcr = ENABLE_RX|ENABLE_TX|CS8`. -/
def privInit : Priv :=
  { baud_rate := DEFAULT_BAUD_RATE
    mcr := 0
    msr := 0
    lcr := CH340_LCR_ENABLE_RX ||| CH340_LCR_ENABLE_TX ||| CH340_LCR_CS8 }

/-! ## Register writes of the synthesizer (`ch340_set_baudrate_lcr`) -/

/-- `ch340_set_baudrate_lcr`: validates the rate, runs both synthesizer
passes, and issues the two register writes (payload to selector `0x1312`,
`lcr` byte to selector `0x2518`) in order, stopping at the first failure.
Returns the C result code and the transfers issued. -/
def ch340_set_baudrate_lcr (dev : Dev) (priv : Priv) (lcr : Nat) : Int × List Xfer :=
  if priv.baud_rate = 0 then ((-22 : Int), [])
  else
    let p := synthPlan priv.baud_rate
    let factor := (0x100 + U32 - p.factor) % U32
    if 0xfe < factor then ((-22 : Int), [])
    else
      let a := (factor <<< 8) ||| p.divisor ||| (if p.x2 then 1 <<< 2 else 0) ||| (1 <<< 7)
      let r1 := ch340_control_out dev CH340_REQ_WRITE_REG 0x1312 a
      if r1.1 ≠ 0 then r1
      else
        let r2 := ch340_control_out dev CH340_REQ_WRITE_REG 0x2518 lcr
        (r2.1, r1.2 ++ r2.2)

/-- `ch340_set_handshake`: pushes `~control` (8-bit value complemented and
truncated to the u16 `value` argument: `0xffff ^^^ control` for a byte). -/
def ch340_set_handshake (dev : Dev) (control : Nat) : Int × List Xfer :=
  ch340_control_out dev CH340_REQ_MODEM_CTRL (0xffff ^^^ control) 0

/-- `ch340_get_status`: reads 2 bytes from selector `0x0706`; on success
stores `(~buffer[0]) & CH340_BITS_MODEM_STAT` into `msr`. -/
def ch340_get_status (dev : Dev) (priv : Priv) : Int × Priv × List Xfer :=
  let r := ch340_control_in dev CH340_REQ_READ_REG 0x0706 0 2
  if r.1 < 0 then (r.1, priv, r.2.2)
  else (r.1, { priv with msr := (r.2.1.getD 0 0 ^^^ 0xff) &&& CH340_BITS_MODEM_STAT }, r.2.2)

/-! ## Bring-up (`ch340_configure`) -/

/-- `ch340_configure`: version read (2 bytes expected), serial-init
request, baud/frame programming, handshake push — each step aborting the
sequence on a negative result. -/
def ch340_configure (dev : Dev) (priv : Priv) : Int × List Xfer :=
  let r1 := ch340_control_in dev CH340_REQ_READ_VERSION 0 0 2
  if r1.1 < 0 then (r1.1, r1.2.2)
  else
    let r2 := ch340_control_out dev CH340_REQ_SERIAL_INIT 0 0
    if r2.1 < 0 then (r2.1, r1.2.2 ++ r2.2)
    else
      let r3 := ch340_set_baudrate_lcr dev priv priv.lcr
      if r3.1 < 0 then (r3.1, r1.2.2 ++ r2.2 ++ r3.2)
      else
        let r4 := ch340_set_handshake dev priv.mcr
        (r4.1, r1.2.2 ++ r2.2 ++ r3.2 ++ r4.2)

/-! ## Termios path (`ch340_set_termios`) -/

/-- The `C_CSIZE(tty)` character-size selector. -/
inductive CSize where
  | cs5
  | cs6
  | cs7
  | cs8
deriving DecidableEq

/-- The inputs `ch340_set_termios` extracts from the tty layer:
`tty_get_baud_rate(tty)`, the `C_*` flag accessors, and whether
`C_BAUD(tty) == B0`.  These are external collaborator reads; they enter the
embedding as a record. -/
structure Tty where
  baud_rate : Nat
  csize : CSize
  parenb : Bool
  parodd : Bool
  cmspar : Bool
  cstopb : Bool
  baudIsB0 : Bool
deriving DecidableEq

/-- The data `ch340_set_termios` reads from a non-NULL `old_termios`:
the result of `tty_termios_hw_change(&tty->termios, old_termios)`, of
`tty_termios_baud_rate(old_termios)`, and whether
`(old_termios->c_cflag & CBAUD) == B0`. -/
structure OldTermios where
  hwChange : Bool
  baud_rate : Nat
  cbaudIsB0 : Bool
deriving DecidableEq

/-- The LCR byte `ch340_set_termios` builds from the tty flags
(lines 416-442 of ch340.c). -/
def buildLcr (tty : Tty) : Nat :=
  let lcr := CH340_LCR_ENABLE_RX ||| CH340_LCR_ENABLE_TX
  let lcr := lcr |||
    (match tty.csize with
     | .cs5 => CH340_LCR_CS5
     | .cs6 => CH340_LCR_CS6
     | .cs7 => CH340_LCR_CS7
     | .cs8 => CH340_LCR_CS8)
  let lcr :=
    if tty.parenb then
      let lcr := lcr ||| CH340_LCR_ENABLE_PAR
      let lcr := if tty.parodd = false then lcr ||| CH340_LCR_PAR_EVEN else lcr
      if tty.cmspar then lcr ||| CH340_LCR_MARK_SPACE else lcr
    else lcr
  if tty.cstopb then lcr ||| CH340_LCR_STOP_BITS_2 else lcr

/-- Body of `ch340_set_termios` after the redundant-change early return:
baud/frame programming with rollback, the B0 modem-control adjustment, and
the final handshake push.  (`tty_termios_copy_hw` on failure mutates only
the tty layer's own record and is outside LineState, so it has no field
here.) -/
def ch340_set_termios_body (dev : Dev) (priv : Priv) (tty : Tty)
    (old : Option OldTermios) : Priv × List Xfer :=
  let baud_rate := tty.baud_rate
  let lcr := buildLcr tty
  let pt :=
    if baud_rate ≠ 0 then
      let pv : Priv := { priv with baud_rate := baud_rate }
      let r := ch340_set_baudrate_lcr dev pv lcr
      match old with
      | some o =>
        if r.1 < 0 then (({ pv with baud_rate := o.baud_rate } : Priv), r.2)
        else if r.1 = 0 then (({ pv with lcr := lcr } : Priv), r.2)
        else (pv, r.2)
      | none =>
        if r.1 = 0 then (({ pv with lcr := lcr } : Priv), r.2)
        else (pv, r.2)
    else (priv, ([] : List Xfer))
  let p1 := pt.1
  let mcr :=
    if tty.baudIsB0 then p1.mcr &&& (0xff ^^^ (CH340_BIT_DTR ||| CH340_BIT_RTS))
    else
      match old with
      | some o =>
        if o.cbaudIsB0 then p1.mcr ||| (CH340_BIT_DTR ||| CH340_BIT_RTS) else p1.mcr
      | none => p1.mcr
  let rh := ch340_set_handshake dev mcr
  ({ p1 with mcr := mcr }, pt.2 ++ rh.2)

/-- `ch340_set_termios`: returns immediately (no transfer, no state
change) when a previous termios exists and `tty_termios_hw_change`
reports no hardware-relevant change. -/
def ch340_set_termios (dev : Dev) (priv : Priv) (tty : Tty)
    (old : Option OldTermios) : Priv × List Xfer :=
  match old with
  | some o =>
    if o.hwChange then ch340_set_termios_body dev priv tty (some o)
    else (priv, [])
  | none => ch340_set_termios_body dev priv tty none

/-! ## Break signalling (`ch340_break_ctl`) -/

/-- `ch340_break_ctl` on the device's break/LCR register pair, assuming
the two control transfers succeed (the round-trip property presupposes
this) and no concurrent modification: the pair `(break register contents,
LCR shadow register contents)` is read fresh, one bit is cleared/set in
each byte according to `break_state`, and the pair is written back as the
little-endian 16-bit value `break_reg[0] | break_reg[1] << 8`, whose low
byte lands in the break register and high byte in the LCR shadow.
Returns the new register pair. -/
def ch340_break_ctl (regs : Nat × Nat) (break_state : Bool) : Nat × Nat :=
  let b0 := regs.1
  let b1 := regs.2
  let b0' :=
    if break_state then b0 &&& (0xff ^^^ CH340_NBREAK_BITS)
    else b0 ||| CH340_NBREAK_BITS
  let b1' :=
    if break_state then b1 &&& (0xff ^^^ CH340_LCR_ENABLE_TX)
    else b1 ||| CH340_LCR_ENABLE_TX
  let reg_contents := b0' ||| (b1' <<< 8)
  (reg_contents % 256, reg_contents / 256 % 256)

/-! ## Modem-line control -/

/-- `ch340_tiocmset`: ORs/ANDs the RTS/DTR bits of `mcr` under the lock
(the four `TIOCM` mask tests arrive as booleans), then pushes the result
via the handshake request. -/
def ch340_tiocmset (dev : Dev) (priv : Priv)
    (setRTS setDTR clearRTS clearDTR : Bool) : Int × Priv × List Xfer :=
  let m := priv.mcr
  let m := if setRTS then m ||| CH340_BIT_RTS else m
  let m := if setDTR then m ||| CH340_BIT_DTR else m
  let m := if clearRTS then m &&& (0xff ^^^ CH340_BIT_RTS) else m
  let m := if clearDTR then m &&& (0xff ^^^ CH340_BIT_DTR) else m
  let r := ch340_set_handshake dev m
  (r.1, { priv with mcr := m }, r.2)

/-- `ch340_dtr_rts`: sets or clears RTS and DTR together, then pushes. -/
def ch340_dtr_rts (dev : Dev) (priv : Priv) (raise : Bool) : Priv × List Xfer :=
  let m :=
    if raise then priv.mcr ||| (CH340_BIT_RTS ||| CH340_BIT_DTR)
    else priv.mcr &&& (0xff ^^^ (CH340_BIT_RTS ||| CH340_BIT_DTR))
  let r := ch340_set_handshake dev m
  ({ priv with mcr := m }, r.2)

/-! ## Status monitor (`ch340_update_status`) -/

/-- The transition counters `port->icount` fields the monitor touches. -/
structure Icount where
  cts : Nat
  dsr : Nat
  rng : Nat
  dcd : Nat
deriving DecidableEq

def icountInit : Icount := ⟨0, 0, 0, 0⟩

/-- `ch340_update_status`: discards notifications shorter than 4 bytes;
otherwise computes `status = ~data[2] & CH340_BITS_MODEM_STAT`, swaps it
into `msr` under the lock, and — when the delta is nonzero — bumps the
transition counter of each changed bit and, if the DCD bit changed *and*
a tty is currently attached (`tty_port_tty_get` non-NULL, the `ttyPresent`
argument), reports the carrier-detect change with the new DCD value.
Returns the new `priv`, the new counters, and the carrier event
(`some value`) if one was delivered. -/
def ch340_update_status (priv : Priv) (ic : Icount) (ttyPresent : Bool)
    (data : List Nat) : Priv × Icount × Option Bool :=
  if data.length < 4 then (priv, ic, none)
  else
    let status := (data.getD 2 0 ^^^ 0xff) &&& CH340_BITS_MODEM_STAT
    let delta := status ^^^ priv.msr
    let priv := { priv with msr := status }
    if delta = 0 then (priv, ic, none)
    else
      let ic :=
        { cts := ic.cts + (if delta &&& CH340_BIT_CTS ≠ 0 then 1 else 0)
          dsr := ic.dsr + (if delta &&& CH340_BIT_DSR ≠ 0 then 1 else 0)
          rng := ic.rng + (if delta &&& CH340_BIT_RI ≠ 0 then 1 else 0)
          dcd := ic.dcd + (if delta &&& CH340_BIT_DCD ≠ 0 then 1 else 0) }
      let ev :=
        if delta &&& CH340_BIT_DCD ≠ 0 ∧ ttyPresent then
          some (decide (status &&& CH340_BIT_DCD ≠ 0))
        else none
      (priv, ic, ev)

/-! ## Power-transition resume (`ch340_reset_resume`) -/

/-- How `ch340_reset_resume` ends: `completed r` means it reached its
final `return usb_serial_generic_resume(serial)` (whose result `r` is an
oracle input); `aborted e` means it returned `e` early. -/
inductive ResumeOutcome where
  | completed (r : Int)
  | aborted (e : Int)
deriving DecidableEq

/-- `ch340_reset_resume`: re-runs `ch340_configure` (its result is not
checked), then — if the port was initialized — resubmits the interrupt
urb (result `submitUrb`, an oracle input) returning its error immediately
when nonzero, re-reads the modem status (a failure there is only logged),
and finally performs the generic resume. -/
def ch340_reset_resume (dev : Dev) (priv : Priv) (portInitialized : Bool)
    (submitUrb : Int) (genericResume : Int) : ResumeOutcome × Priv × List Xfer :=
  let rc := ch340_configure dev priv
  if portInitialized then
    if submitUrb ≠ 0 then (.aborted submitUrb, priv, rc.2)
    else
      let rs := ch340_get_status dev priv
      (.completed genericResume, rs.2.1, rc.2 ++ rs.2.2)
  else (.completed genericResume, priv, rc.2)

/-! ## Event model over the port (for the LineState invariant) -/

/-- One invocation of an operation that may mutate `ch340_private` or the
transition counters, with the external inputs it consumed. -/
inductive Ev where
  | getStatus (dev : Dev)
  | updateStatus (ttyPresent : Bool) (data : List Nat)
  | setTermios (dev : Dev) (tty : Tty) (old : Option OldTermios)
  | tiocmset (dev : Dev) (setRTS setDTR clearRTS clearDTR : Bool)
  | dtrRts (dev : Dev) (raise : Bool)
  | resetResume (dev : Dev) (portInitialized : Bool) (submitUrb genericResume : Int)

/-- Effect of one event on `(ch340_private, icount)`. -/
def step (s : Priv × Icount) (e : Ev) : Priv × Icount :=
  match e with
  | .getStatus dev => ((ch340_get_status dev s.1).2.1, s.2)
  | .updateStatus tp data =>
    let r := ch340_update_status s.1 s.2 tp data
    (r.1, r.2.1)
  | .setTermios dev tty old => ((ch340_set_termios dev s.1 tty old).1, s.2)
  | .tiocmset dev a b c d => ((ch340_tiocmset dev s.1 a b c d).2.1, s.2)
  | .dtrRts dev r => ((ch340_dtr_rts dev s.1 r).1, s.2)
  | .resetResume dev pI su gr => ((ch340_reset_resume dev s.1 pI su gr).2.1, s.2)

/-- The `status` value `ch340_update_status` computes from a notification:
`~data[2] & CH340_BITS_MODEM_STAT`. -/
def statusOf (data : List Nat) : Nat :=
  (data.getD 2 0 ^^^ 0xff) &&& CH340_BITS_MODEM_STAT

/-- The `delta` value of `ch340_update_status`. -/
def deltaOf (priv : Priv) (data : List Nat) : Nat := statusOf data ^^^ priv.msr

/-! ## Concrete device oracles used by closed theorems -/

/-- A device whose transfers all succeed; IN transfers return `0x27`
bytes (the documented version-reply byte). -/
def devOk : Dev :=
  ⟨fun _ _ _ => 0, fun _ _ _ bufsize => ((bufsize : Int), List.replicate bufsize 0x27)⟩

/-- A device whose transfers all fail with `-EPROTO` (= -71). -/
def devFail : Dev := ⟨fun _ _ _ => (-71 : Int), fun _ _ _ _ => ((-71 : Int), [])⟩

/-- A device whose IN transfers return only one byte. -/
def devShort : Dev := ⟨fun _ _ _ => 0, fun _ _ _ _ => ((1 : Int), [0x27])⟩

/-- A concrete 115200-baud 8N1 termios input. -/
def tty0 : Tty := ⟨115200, .cs8, false, false, false, false, false⟩

/-! ## Helper lemmas -/

theorem or_shift8 (hi lo : Nat) (h : lo < 256) : (hi <<< 8) ||| lo = 2 ^ 8 * hi + lo := by
  apply Nat.eq_of_testBit_eq
  intro j
  rw [Nat.testBit_or, Nat.testBit_shiftLeft,
      Nat.testBit_mul_pow_two_add hi (show lo < 2 ^ 8 by omega) j]
  by_cases hj : j < 8
  · simp [hj, show ¬ (j ≥ 8) by omega]
  · have hz : lo.testBit j = false := Nat.testBit_lt_two_pow (by
      calc lo < 2 ^ 8 := by omega
        _ ≤ 2 ^ j := Nat.pow_le_pow_right (by omega) (by omega))
    simp [hj, show j ≥ 8 by omega, hz]

theorem shrink_factor_le (d : Nat) : ∀ f v, (shrink f d v).1 ≤ f := by
  induction d with
  | zero => intro f v; exact Nat.le_refl f
  | succ d ih =>
    intro f v
    unfold shrink
    by_cases h : 0xff < f
    · simp only [h, if_true]
      calc (shrink (f >>> 3) d (v <<< 3)).1 ≤ f >>> 3 := ih _ _
        _ ≤ f := by rw [Nat.shiftRight_eq_div_pow]; exact Nat.div_le_self f (2 ^ 3)
    · simp [h]

theorem shrink_divisor_le (d : Nat) : ∀ f v, (shrink f d v).2.1 ≤ d := by
  induction d with
  | zero => intro f v; exact Nat.le_refl 0
  | succ d ih =>
    intro f v
    unfold shrink
    by_cases h : 0xff < f
    · simp only [h, if_true]
      exact Nat.le_succ_of_le (ih _ _)
    · simp [h]

theorem divRC_le (base b : Nat) (hbase : base ≤ 12000000) (hb : b ≠ 0) :
    DIV_ROUND_CLOSEST base b ≤ 12000000 := by
  unfold DIV_ROUND_CLOSEST
  have hb' : 0 < b := Nat.pos_of_ne_zero hb
  have := (Nat.div_lt_iff_lt_mul hb').mpr (show base + b / 2 < 12000001 * b by omega)
  omega

theorem synthPlan_factor_le (b : Nat) (hb : b ≠ 0) : (synthPlan b).factor ≤ 12000000 := by
  have h1 : (mkCand CH340_BAUDBASE_FACTOR b).factor ≤ 12000000 := by
    unfold mkCand
    exact le_trans (shrink_factor_le _ _ _) (divRC_le _ _ (by norm_num [CH340_BAUDBASE_FACTOR]) hb)
  have h2 : (mkCand (CH340_BAUDBASE_FACTOR * 2) b).factor ≤ 12000000 := by
    unfold mkCand
    exact le_trans (shrink_factor_le _ _ _) (divRC_le _ _ (by norm_num [CH340_BAUDBASE_FACTOR]) hb)
  unfold synthPlan
  dsimp only
  split_ifs <;> simpa

theorem synthPlan_divisor_le (b : Nat) : (synthPlan b).divisor ≤ 3 := by
  have h1 : (mkCand CH340_BAUDBASE_FACTOR b).divisor ≤ 3 := by
    unfold mkCand CH340_BAUDBASE_DIVMAX
    exact shrink_divisor_le _ _ _
  have h2 : (mkCand (CH340_BAUDBASE_FACTOR * 2) b).divisor ≤ 3 := by
    unfold mkCand CH340_BAUDBASE_DIVMAX
    exact shrink_divisor_le _ _ _
  unfold synthPlan
  dsimp only
  split_ifs <;> simpa

theorem and_0f_and_f0 (x : Nat) : (x &&& 0xf) &&& 0xf0 = 0 := by
  rw [Nat.and_assoc, show ((0xf : Nat) &&& 0xf0) = 0 from rfl]
  exact Nat.and_zero x

set_option maxRecDepth 8192 in
theorem byte_restore_bit0 : ∀ b < 256, b &&& 1 = 1 → (b &&& 0xfe) ||| 1 = b := by decide

set_option maxRecDepth 8192 in
theorem byte_restore_bit6 : ∀ b < 256, b &&& 0x40 = 0x40 → (b &&& 0xbf) ||| 0x40 = b := by decide

/-! ## Claim C1 -/

/-- C1 counterexample.  At requested rate 1714286 the double-clock
candidate achieves deviation 0, but its factor is 7 (not `> 8`), so the
code keeps the single-clock candidate with deviation 285714: the chosen
plan does **not** minimize the deviation over both candidates, refuting
the claim's minimization clause. -/
theorem synthPlan_rejects_better_x2_at_1714286 :
    (synthPlan 1714286).x2 = false ∧
    planDiff 1714286 = 285714 ∧
    diff2 1714286 = 0 ∧
    factor2 1714286 ≤ 8 ∧
    0 < planDiff 1714286 := by decide

/-- C1 (amended).  For every requested rate, the synthesizer adopts the
double-clock candidate exactly when that candidate's factor exceeds 8 and
its deviation is strictly smaller than the single-clock one; the chosen
plan carries the winning candidate's factor and divisor; the achieved
deviation is minimal over the *considered* candidates (both when the
double-clock factor exceeds 8, the single-clock one alone otherwise); and
an exact tie keeps the single-clock candidate. -/
theorem synthPlan_selection_spec (baud : Nat) :
    ((synthPlan baud).x2 = true ↔ 8 < factor2 baud ∧ diff2 baud < diff1 baud) ∧
    ((synthPlan baud).x2 = true →
      (synthPlan baud).factor = (mkCand (CH340_BAUDBASE_FACTOR * 2) baud).factor ∧
      (synthPlan baud).divisor = (mkCand (CH340_BAUDBASE_FACTOR * 2) baud).divisor) ∧
    ((synthPlan baud).x2 = false →
      (synthPlan baud).factor = (mkCand CH340_BAUDBASE_FACTOR baud).factor ∧
      (synthPlan baud).divisor = (mkCand CH340_BAUDBASE_FACTOR baud).divisor) ∧
    planDiff baud = (if 8 < factor2 baud then min (diff1 baud) (diff2 baud) else diff1 baud) ∧
    (diff2 baud = diff1 baud → (synthPlan baud).x2 = false) := by
  unfold planDiff diff1 diff2 factor2 synthPlan
  dsimp only
  split_ifs <;> simp_all
  omega

/-- C1 witness: at 9600 baud the two candidates tie (deviation 15 each),
and the tie-break clause of `synthPlan_selection_spec` forces the
single-clock choice. -/
theorem synthPlan_selection_spec_witness :
    diff2 9600 = diff1 9600 ∧ (synthPlan 9600).x2 = false :=
  ⟨by decide, (synthPlan_selection_spec 9600).2.2.2.2 (by decide)⟩

/-! ## Claim C3 -/

/-- C3.  `ch340_set_baudrate_lcr` fails with `-EINVAL` having issued no
control transfer at all — leaving device and cached state untouched —
exactly when the requested rate is 0 or the computed
`byte_factor = 0x100 - best_factor` exceeds `0xfe`; in every other case at
least one register write is attempted (so the result is never the pair
`(-EINVAL, no transfers)`). -/
theorem set_baudrate_lcr_invalid_iff (dev : Dev) (priv : Priv) (lcr : Nat) :
    (priv.baud_rate = 0 ∨ 0xfe < byteFactor priv.baud_rate) ↔
      ch340_set_baudrate_lcr dev priv lcr = ((-22 : Int), ([] : List Xfer)) := by
  unfold ch340_set_baudrate_lcr byteFactor ch340_control_out
  dsimp only
  split_ifs with h1 h2 h3 <;> simp_all

/-! ## Claim C4 -/

/-- C4.  For every representable rate (nonzero, with `byte_factor` in
range) the first transfer issued is the register write of the 16-bit
payload to selector `0x1312`; the payload's high byte is
`0x100 - best_factor`, its low byte is
`best_divisor | (x2 ? 0x04 : 0) | 0x80`, and bit 7 of the low byte is set. -/
theorem set_baudrate_lcr_payload (dev : Dev) (priv : Priv) (lcr : Nat)
    (h0 : priv.baud_rate ≠ 0) (hf : byteFactor priv.baud_rate ≤ 0xfe) :
    (ch340_set_baudrate_lcr dev priv lcr).2.head? =
      some ⟨true, CH340_REQ_WRITE_REG, 0x1312, baudPayload priv.baud_rate, 0⟩ ∧
    2 ≤ (synthPlan priv.baud_rate).factor ∧
    (synthPlan priv.baud_rate).factor ≤ 0x100 ∧
    byteFactor priv.baud_rate = 0x100 - (synthPlan priv.baud_rate).factor ∧
    baudPayload priv.baud_rate / 256 = 0x100 - (synthPlan priv.baud_rate).factor ∧
    baudPayload priv.baud_rate % 256 =
      ((synthPlan priv.baud_rate).divisor |||
        (if (synthPlan priv.baud_rate).x2 then 4 else 0) ||| 0x80) ∧
    (baudPayload priv.baud_rate % 256).testBit 7 = true := by
  have hfl : (synthPlan priv.baud_rate).factor ≤ 12000000 :=
    synthPlan_factor_le _ h0
  have hdl : (synthPlan priv.baud_rate).divisor ≤ 3 := synthPlan_divisor_le _
  have hbf : byteFactor priv.baud_rate = (0x100 + U32 - (synthPlan priv.baud_rate).factor) % U32 := rfl
  have hU : U32 = 4294967296 := rfl
  have hfr : 2 ≤ (synthPlan priv.baud_rate).factor ∧
      (synthPlan priv.baud_rate).factor ≤ 0x100 ∧
      byteFactor priv.baud_rate = 0x100 - (synthPlan priv.baud_rate).factor := by
    rw [hbf] at hf ⊢
    rw [hU] at hf ⊢
    omega
  have hlow : ((synthPlan priv.baud_rate).divisor |||
      (if (synthPlan priv.baud_rate).x2 then 4 else 0) ||| 0x80) < 256 := by
    have h1 : (synthPlan priv.baud_rate).divisor < 2 ^ 8 := by omega
    have h2 : (if (synthPlan priv.baud_rate).x2 then 4 else 0) < 2 ^ 8 := by
      split_ifs <;> norm_num
    have h3 : (0x80 : Nat) < 2 ^ 8 := by norm_num
    calc ((synthPlan priv.baud_rate).divisor |||
        (if (synthPlan priv.baud_rate).x2 then 4 else 0) ||| 0x80) < 2 ^ 8 :=
          Nat.or_lt_two_pow (Nat.or_lt_two_pow h1 h2) h3
      _ = 256 := by norm_num
  have hpay : baudPayload priv.baud_rate =
      2 ^ 8 * byteFactor priv.baud_rate +
        ((synthPlan priv.baud_rate).divisor |||
          (if (synthPlan priv.baud_rate).x2 then 4 else 0) ||| 0x80) := by
    unfold baudPayload
    rw [show (1 <<< 2 : Nat) = 4 from rfl, show (1 <<< 7 : Nat) = 0x80 from rfl]
    rw [Nat.lor_assoc, Nat.lor_assoc]
    rw [or_shift8 _ _ (by rw [← Nat.lor_assoc]; exact hlow)]
    rw [Nat.lor_assoc]
  refine ⟨?_, hfr.1, hfr.2.1, hfr.2.2, ?_, ?_, ?_⟩
  · unfold ch340_set_baudrate_lcr ch340_control_out
    dsimp only
    rw [if_neg h0, if_neg (by rw [← hbf]; omega)]
    cases hx : (synthPlan priv.baud_rate).x2 <;>
      simp only [baudPayload, byteFactor, hx, Bool.false_eq_true, if_true, if_false] <;>
      split <;> rfl
  · rw [hpay]; omega
  · rw [hpay]; omega
  · rw [hpay]
    have : (2 ^ 8 * byteFactor priv.baud_rate +
        ((synthPlan priv.baud_rate).divisor |||
          (if (synthPlan priv.baud_rate).x2 then 4 else 0) ||| 0x80)) % 256 =
        ((synthPlan priv.baud_rate).divisor |||
          (if (synthPlan priv.baud_rate).x2 then 4 else 0) ||| 0x80) := by omega
    rw [this, Nat.testBit_or]
    simp [show Nat.testBit 0x80 7 = true from rfl]

/-- C4 witness: at 9600 baud (representable: `byte_factor = 178`) the
payload is `0xB282`: high byte `178 = 0x100 - 78`, low byte
`0x82 = divisor 2 | 0x80`, bit 7 set. -/
theorem set_baudrate_lcr_payload_witness :
    privInit.baud_rate ≠ 0 ∧ byteFactor privInit.baud_rate ≤ 0xfe ∧
    ((ch340_set_baudrate_lcr devOk privInit privInit.lcr).2.head? =
      some ⟨true, CH340_REQ_WRITE_REG, 0x1312, baudPayload privInit.baud_rate, 0⟩ ∧
    2 ≤ (synthPlan privInit.baud_rate).factor ∧
    (synthPlan privInit.baud_rate).factor ≤ 0x100 ∧
    byteFactor privInit.baud_rate = 0x100 - (synthPlan privInit.baud_rate).factor ∧
    baudPayload privInit.baud_rate / 256 = 0x100 - (synthPlan privInit.baud_rate).factor ∧
    baudPayload privInit.baud_rate % 256 =
      ((synthPlan privInit.baud_rate).divisor |||
        (if (synthPlan privInit.baud_rate).x2 then 4 else 0) ||| 0x80) ∧
    (baudPayload privInit.baud_rate % 256).testBit 7 = true) :=
  ⟨by decide, by decide,
    set_baudrate_lcr_payload devOk privInit privInit.lcr (by decide) (by decide)⟩

/-! ## Claim C9 -/

/-- C9.  When a previous termios record is present and
`tty_termios_hw_change` reports no hardware-relevant change,
`ch340_set_termios` is a complete no-op: every LineState field is
unchanged and no control transfer is issued. -/
theorem set_termios_noop_spec (dev : Dev) (priv : Priv) (tty : Tty) (o : OldTermios)
    (h : o.hwChange = false) :
    ch340_set_termios dev priv tty (some o) = (priv, ([] : List Xfer)) := by
  unfold ch340_set_termios
  simp [h]

/-- C9 witness: a concrete no-change request leaves the freshly probed
state untouched and issues nothing. -/
theorem set_termios_noop_spec_witness :
    (⟨false, 9600, false⟩ : OldTermios).hwChange = false ∧
    ch340_set_termios devOk privInit tty0 (some ⟨false, 9600, false⟩) =
      (privInit, ([] : List Xfer)) :=
  ⟨rfl, set_termios_noop_spec devOk privInit tty0 ⟨false, 9600, false⟩ rfl⟩

/-! ## Claim C5 -/

/-- C5 counterexample.  On the initial configuration call the tty layer
passes no previous termios (`old_termios == NULL`, as `ch340_open` does);
when the programming step fails, the new rate stays in LineState — it is
**not** restored to the previous value 9600. -/
theorem set_termios_no_rollback_without_old :
    (ch340_set_baudrate_lcr devFail { privInit with baud_rate := 115200 }
        (buildLcr tty0)).1 < 0 ∧
    privInit.baud_rate = 9600 ∧
    (ch340_set_termios devFail privInit tty0 none).1.baud_rate = 115200 := by decide

/-- C5 (amended).  When a previous termios record **is** present (and
reports a hardware change) and the requested rate is nonzero: on failure
of the programming step the stored rate is set to the previous record's
rate (`tty_termios_baud_rate(old_termios)`, the last-known-good value) and
the frame format keeps its old value; the frame format is updated to the
newly built LCR byte exactly when the programming step returns 0.  When no
previous record is present, a failed call leaves the new rate stored (see
the counterexample). -/
theorem set_termios_rollback_spec (dev : Dev) (priv : Priv) (tty : Tty) (o : OldTermios)
    (hc : o.hwChange = true) (hb : tty.baud_rate ≠ 0) :
    (ch340_set_termios dev priv tty (some o)).1.baud_rate =
      (if (ch340_set_baudrate_lcr dev { priv with baud_rate := tty.baud_rate }
            (buildLcr tty)).1 < 0
       then o.baud_rate else tty.baud_rate) ∧
    (ch340_set_termios dev priv tty (some o)).1.lcr =
      (if (ch340_set_baudrate_lcr dev { priv with baud_rate := tty.baud_rate }
            (buildLcr tty)).1 = 0
       then buildLcr tty else priv.lcr) := by
  unfold ch340_set_termios ch340_set_termios_body
  dsimp only
  rw [if_pos hc, if_pos hb]
  constructor
  · dsimp only
    split_ifs <;> simp_all
  · dsimp only
    split_ifs <;> simp_all

/-- C5 witness: a failing device with a previous 2400-baud record present
exercises the rollback clauses. -/
theorem set_termios_rollback_spec_witness :
    (⟨true, 2400, false⟩ : OldTermios).hwChange = true ∧
    tty0.baud_rate ≠ 0 ∧
    ((ch340_set_termios devFail privInit tty0 (some ⟨true, 2400, false⟩)).1.baud_rate =
      (if (ch340_set_baudrate_lcr devFail { privInit with baud_rate := tty0.baud_rate }
            (buildLcr tty0)).1 < 0
       then (2400 : Nat) else tty0.baud_rate) ∧
    (ch340_set_termios devFail privInit tty0 (some ⟨true, 2400, false⟩)).1.lcr =
      (if (ch340_set_baudrate_lcr devFail { privInit with baud_rate := tty0.baud_rate }
            (buildLcr tty0)).1 = 0
       then buildLcr tty0 else privInit.lcr)) :=
  ⟨rfl, by decide,
    set_termios_rollback_spec devFail privInit tty0 ⟨true, 2400, false⟩ rfl (by decide)⟩

/-! ## Claim C2 -/

/-- C2 counterexample.  The scenario notification with no tty attached
(`tty_port_tty_get` returning NULL): the DCD bit changes and the DCD
counter increments, but no carrier-detect event is delivered — so the
event is not raised "exactly when the DCD bit changed". -/
theorem update_status_no_event_without_tty :
    deltaOf privInit [0x08, 0x00, 0xF7, 0xEE] &&& CH340_BIT_DCD ≠ 0 ∧
    (ch340_update_status privInit icountInit false [0x08, 0x00, 0xF7, 0xEE]).2.1.dcd =
      icountInit.dcd + 1 ∧
    (ch340_update_status privInit icountInit false [0x08, 0x00, 0xF7, 0xEE]).2.2 = none := by
  decide

/-- C2 (amended).  A notification shorter than 4 bytes changes nothing.
For a notification of at least 4 bytes: `msr` becomes
`~data[2] & CH340_BITS_MODEM_STAT`; each transition counter increments
exactly when the corresponding bit of `delta = status ^ msr_old` is set
(so nothing changes when the delta is zero); and the carrier-detect event,
carrying the new DCD value, is delivered exactly when the DCD bit changed
**and** a tty is attached. -/
theorem update_status_spec (priv : Priv) (ic : Icount) (ttyP : Bool) (data : List Nat) :
    (data.length < 4 → ch340_update_status priv ic ttyP data = (priv, ic, none)) ∧
    (4 ≤ data.length →
      (ch340_update_status priv ic ttyP data).1 = { priv with msr := statusOf data } ∧
      (ch340_update_status priv ic ttyP data).2.1 =
        ⟨ic.cts + (if deltaOf priv data &&& CH340_BIT_CTS ≠ 0 then 1 else 0),
         ic.dsr + (if deltaOf priv data &&& CH340_BIT_DSR ≠ 0 then 1 else 0),
         ic.rng + (if deltaOf priv data &&& CH340_BIT_RI ≠ 0 then 1 else 0),
         ic.dcd + (if deltaOf priv data &&& CH340_BIT_DCD ≠ 0 then 1 else 0)⟩ ∧
      (ch340_update_status priv ic ttyP data).2.2 =
        (if deltaOf priv data &&& CH340_BIT_DCD ≠ 0 ∧ ttyP = true
         then some (decide (statusOf data &&& CH340_BIT_DCD ≠ 0)) else none)) := by
  constructor
  · intro h4
    unfold ch340_update_status
    rw [if_pos h4]
  · intro h4
    unfold ch340_update_status
    rw [if_neg (by omega)]
    dsimp only
    rw [show (data.getD 2 0 ^^^ 0xff) &&& CH340_BITS_MODEM_STAT = statusOf data from rfl]
    rw [show statusOf data ^^^ priv.msr = deltaOf priv data from rfl]
    by_cases hz : deltaOf priv data = 0
    · rw [if_pos hz]
      refine ⟨rfl, ?_, ?_⟩
      · simp [hz]
      · simp [hz]
    · rw [if_neg hz]
      exact ⟨rfl, rfl, rfl⟩

/-- C2 witness: the claim's scenario.  Notification
`[0x08, 0x00, 0xF7, 0xEE]` with prior `msr = 0` (and a tty attached)
yields `status = 0x08`, `delta = 0x08`, a carrier event with value
`true`, and the DCD counter incremented once with the others untouched. -/
theorem update_status_spec_witness :
    deltaOf privInit [0x08, 0x00, 0xF7, 0xEE] = 0x08 ∧
    (ch340_update_status privInit icountInit true [0x08, 0x00, 0xF7, 0xEE]).1.msr = 0x08 ∧
    (ch340_update_status privInit icountInit true [0x08, 0x00, 0xF7, 0xEE]).2.2 = some true ∧
    (ch340_update_status privInit icountInit true [0x08, 0x00, 0xF7, 0xEE]).2.1 =
      ⟨0, 0, 0, 1⟩ := by
  have h := (update_status_spec privInit icountInit true [0x08, 0x00, 0xF7, 0xEE]).2 (by decide)
  refine ⟨by decide, ?_, ?_, ?_⟩
  · rw [h.1]
    decide
  · rw [h.2.2]
    decide
  · rw [h.2.1]
    decide

/-! ## Claim C6 -/

/-- C6 counterexample.  With the port previously active and the interrupt
urb resubmission failing (`-ENODEV` = -19), `ch340_reset_resume` returns
that error immediately: the outcome is `aborted`, not `completed`, so the
resubmission failure **does** block resume completion
(`usb_serial_generic_resume` is never reached), refuting the claim. -/
theorem reset_resume_blocked_by_urb_failure :
    (ch340_reset_resume devOk privInit true (-19) 0).1 = .aborted (-19) ∧
    ResumeOutcome.aborted (-19) ≠ ResumeOutcome.completed 0 := by decide

/-- C6 (amended).  Resume always re-executes the full bring-up sequence
(its transfer trace starts with `ch340_configure`'s, whose own result is
ignored); when the port was previously active and the status-subscription
resubmission fails, resume aborts with that error before the completion
step; when resubmission succeeds — or the port was inactive — resume
always reaches the completion step, for every device, in particular even
when the synchronous status re-read fails. -/
theorem reset_resume_spec (dev : Dev) (priv : Priv) (pI : Bool) (su gr : Int) :
    (∃ rest, (ch340_reset_resume dev priv pI su gr).2.2 =
      (ch340_configure dev priv).2 ++ rest) ∧
    (pI = true → su ≠ 0 →
      (ch340_reset_resume dev priv pI su gr).1 = .aborted su) ∧
    (su = 0 → (ch340_reset_resume dev priv pI su gr).1 = .completed gr) ∧
    (pI = false → (ch340_reset_resume dev priv pI su gr).1 = .completed gr) := by
  unfold ch340_reset_resume
  refine ⟨?_, ?_, ?_, ?_⟩
  · cases pI
    · exact ⟨[], by simp⟩
    · by_cases hsu : su ≠ 0
      · exact ⟨[], by simp [hsu]⟩
      · exact ⟨(ch340_get_status dev priv).2.2, by simp [hsu]⟩
  · intro hpI hsu
    simp [hpI, hsu]
  · intro hsu
    cases pI <;> simp [hsu]
  · intro hpI
    simp [hpI]

/-- C6 witness: an active port with a failing resubmission aborts resume
with the resubmission error. -/
theorem reset_resume_spec_witness :
    (true = true) ∧ ((-19 : Int) ≠ 0) ∧
    (ch340_reset_resume devOk privInit true (-19) 5).1 = .aborted (-19) :=
  ⟨rfl, by decide, (reset_resume_spec devOk privInit true (-19) 5).2.1 rfl (by decide)⟩

/-! ## Claim C7 -/

/-- C7.  A register read answered with fewer bytes than requested fails
with the short-read error `-EIO`, a branch taken only when the transport
itself succeeded (`0 ≤ r`) — a transport failure instead propagates its
own code unchanged; and with the version read during bring-up returning
only 1 of 2 bytes, `ch340_configure` fails with that short-read error and
its transfer trace contains no serial-init request. -/
theorem configure_short_read_spec (dev : Dev) (priv : Priv) (r : Int) (buf : List Nat)
    (h : dev.inResp CH340_REQ_READ_VERSION 0 0 2 = (r, buf))
    (h0 : 0 ≤ r) (h2 : r < 2) :
    (ch340_control_in dev CH340_REQ_READ_VERSION 0 0 2).1 = -5 ∧
    (∀ (d : Dev) (req v i n : Nat), (d.inResp req v i n).1 < 0 →
      (ch340_control_in d req v i n).1 = (d.inResp req v i n).1) ∧
    (ch340_configure dev priv).1 = -5 ∧
    ∀ x ∈ (ch340_configure dev priv).2, x.request ≠ CH340_REQ_SERIAL_INIT := by
  have hin : (ch340_control_in dev CH340_REQ_READ_VERSION 0 0 2).1 = -5 ∧
      (ch340_control_in dev CH340_REQ_READ_VERSION 0 0 2).2.2 =
        [⟨false, CH340_REQ_READ_VERSION, 0, 0, 2⟩] := by
    unfold ch340_control_in
    rw [h]
    dsimp only
    rw [if_pos (by omega), if_pos h0]
    exact ⟨rfl, rfl⟩
  refine ⟨hin.1, ?_, ?_, ?_⟩
  · intro d req v i n hd
    unfold ch340_control_in
    dsimp only
    rw [if_pos (by omega), if_neg (by omega)]
  · unfold ch340_configure
    rw [if_pos (by rw [hin.1]; omega)]
    exact hin.1
  · unfold ch340_configure
    rw [if_pos (by rw [hin.1]; omega)]
    intro x hx
    rw [hin.2] at hx
    simp at hx
    rw [hx]
    decide

/-- C7 witness: a device answering the 2-byte version read with a single
byte makes bring-up fail with `-EIO` before serial-init is issued. -/
theorem configure_short_read_spec_witness :
    devShort.inResp CH340_REQ_READ_VERSION 0 0 2 = ((1 : Int), [0x27]) ∧
    (0 : Int) ≤ 1 ∧ (1 : Int) < 2 ∧
    ((ch340_control_in devShort CH340_REQ_READ_VERSION 0 0 2).1 = -5 ∧
    (∀ (d : Dev) (req v i n : Nat), (d.inResp req v i n).1 < 0 →
      (ch340_control_in d req v i n).1 = (d.inResp req v i n).1) ∧
    (ch340_configure devShort privInit).1 = -5 ∧
    ∀ x ∈ (ch340_configure devShort privInit).2, x.request ≠ CH340_REQ_SERIAL_INIT) :=
  ⟨rfl, by decide, by decide,
    configure_short_read_spec devShort privInit 1 [0x27] rfl (by decide) (by decide)⟩

/-! ## Claim C8 -/

theorem lo_hi_pair (x y : Nat) (hxm : x < 256) (hym : y < 256) :
    (x ||| (y <<< 8)) % 256 = x ∧ (x ||| (y <<< 8)) / 256 % 256 = y := by
  rw [Nat.lor_comm, or_shift8 y x hxm]
  omega

/-- C8 counterexample.  From the pre-state `(0x00, 0x00)` — break-control
bit already clear — the pair `set_break(true); set_break(false)` ends with
the pair `(0x01, 0x40)`: the NBREAK bit is forced to 1, not restored to
its pre-call value 0, refuting the claim for arbitrary pre-states. -/
theorem break_ctl_pair_not_restoring :
    ch340_break_ctl (ch340_break_ctl (0, 0) true) false = (1, 0x40) ∧
    (ch340_break_ctl (ch340_break_ctl (0, 0) true) false).1 &&& CH340_NBREAK_BITS ≠
      (0 : Nat) &&& CH340_NBREAK_BITS := by decide

/-- C8 (amended).  The pair `set_break(true); set_break(false)` forces the
NBREAK and TX-enable bits to 1 and preserves every other bit of the
register pair; hence it restores the full pre-state exactly when the
pre-state already had both bits set — the normal non-break state. -/
theorem break_ctl_pair_restores (b0 b1 : Nat) (hb0 : b0 < 256) (hb1 : b1 < 256)
    (h0 : b0 &&& CH340_NBREAK_BITS = CH340_NBREAK_BITS)
    (h1 : b1 &&& CH340_LCR_ENABLE_TX = CH340_LCR_ENABLE_TX) :
    ch340_break_ctl (ch340_break_ctl (b0, b1) true) false = (b0, b1) := by
  have s1 : ch340_break_ctl (b0, b1) true = (b0 &&& 0xfe, b1 &&& 0xbf) := by
    have h := lo_hi_pair (b0 &&& 0xfe) (b1 &&& 0xbf)
        (lt_of_le_of_lt Nat.and_le_right (by norm_num))
        (lt_of_le_of_lt Nat.and_le_right (by norm_num))
    unfold ch340_break_ctl
    dsimp only
    rw [if_pos rfl, if_pos rfl]
    rw [show (0xff ^^^ CH340_NBREAK_BITS : Nat) = 0xfe from rfl,
        show (0xff ^^^ CH340_LCR_ENABLE_TX : Nat) = 0xbf from rfl]
    rw [h.1, h.2]
  have h0' : b0 &&& 1 = 1 := h0
  have h1' : b1 &&& 0x40 = 0x40 := h1
  have s2 : ch340_break_ctl (b0 &&& 0xfe, b1 &&& 0xbf) false = (b0, b1) := by
    have hr0 : (b0 &&& 0xfe) ||| 1 = b0 := byte_restore_bit0 b0 hb0 h0'
    have hr1 : (b1 &&& 0xbf) ||| 0x40 = b1 := byte_restore_bit6 b1 hb1 h1'
    have h := lo_hi_pair b0 b1 hb0 hb1
    unfold ch340_break_ctl
    dsimp only
    rw [if_neg (by simp), if_neg (by simp)]
    rw [show (CH340_NBREAK_BITS : Nat) = 1 from rfl,
        show (CH340_LCR_ENABLE_TX : Nat) = 0x40 from rfl]
    rw [hr0, hr1, h.1, h.2]
  rw [s1, s2]

/-- C8 witness: from the normal non-break pre-state `(0xff, 0xc3)` (NBREAK
set, TX-enable set) the break round-trip restores the pair exactly. -/
theorem break_ctl_pair_restores_witness :
    (0xff : Nat) < 256 ∧ (0xc3 : Nat) < 256 ∧
    (0xff : Nat) &&& CH340_NBREAK_BITS = CH340_NBREAK_BITS ∧
    (0xc3 : Nat) &&& CH340_LCR_ENABLE_TX = CH340_LCR_ENABLE_TX ∧
    ch340_break_ctl (ch340_break_ctl (0xff, 0xc3) true) false = (0xff, 0xc3) :=
  ⟨by decide, by decide, by decide, by decide,
    break_ctl_pair_restores 0xff 0xc3 (by decide) (by decide) (by decide) (by decide)⟩

/-! ## Claim C10 -/

theorem get_status_msr_masked (dev : Dev) (priv : Priv)
    (h : priv.msr &&& 0xf0 = 0) : (ch340_get_status dev priv).2.1.msr &&& 0xf0 = 0 := by
  unfold ch340_get_status
  dsimp only
  split
  · exact h
  · exact and_0f_and_f0 _

theorem update_status_msr_masked (priv : Priv) (ic : Icount) (ttyP : Bool)
    (data : List Nat) (h : priv.msr &&& 0xf0 = 0) :
    (ch340_update_status priv ic ttyP data).1.msr &&& 0xf0 = 0 := by
  unfold ch340_update_status
  dsimp only
  split
  · exact h
  · split
    · exact and_0f_and_f0 _
    · exact and_0f_and_f0 _

theorem set_termios_msr_eq (dev : Dev) (priv : Priv) (tty : Tty)
    (old : Option OldTermios) :
    (ch340_set_termios dev priv tty old).1.msr = priv.msr := by
  unfold ch340_set_termios ch340_set_termios_body
  cases old <;> dsimp only <;> (repeat' split) <;> rfl

theorem reset_resume_msr_masked (dev : Dev) (priv : Priv) (pI : Bool) (su gr : Int)
    (h : priv.msr &&& 0xf0 = 0) :
    (ch340_reset_resume dev priv pI su gr).2.1.msr &&& 0xf0 = 0 := by
  unfold ch340_reset_resume
  dsimp only
  split
  · split
    · exact h
    · exact get_status_msr_masked dev priv h
  · exact h

/-- C10.  `msr` holds only the four defined status bits in every reachable
state: it starts at 0 when the port is probed, and along any sequence of
operations — status queries, notifications, termios changes, modem-line
sets, resumes — the high nibble stays clear, because the only two writers
of `msr` (`ch340_get_status` and `ch340_update_status`) both mask the
complemented device byte with `CH340_BITS_MODEM_STAT = 0x0f`. -/
theorem msr_invariant_spec :
    privInit.msr = 0 ∧
    ∀ evs : List Ev,
      (List.foldl step (privInit, icountInit) evs).1.msr &&& 0xf0 = 0 := by
  refine ⟨rfl, ?_⟩
  have key : ∀ (evs : List Ev) (s : Priv × Icount), s.1.msr &&& 0xf0 = 0 →
      (List.foldl step s evs).1.msr &&& 0xf0 = 0 := by
    intro evs
    induction evs with
    | nil => intro s hs; exact hs
    | cons e rest ih =>
      intro s hs
      rw [List.foldl_cons]
      apply ih
      cases e with
      | getStatus dev => exact get_status_msr_masked dev s.1 hs
      | updateStatus tp data => exact update_status_msr_masked s.1 s.2 tp data hs
      | setTermios dev tty old =>
        show (ch340_set_termios dev s.1 tty old).1.msr &&& 0xf0 = 0
        rw [set_termios_msr_eq]
        exact hs
      | tiocmset dev a b c d => exact hs
      | dtrRts dev r => exact hs
      | resetResume dev pI su gr => exact reset_resume_msr_masked dev s.1 pI su gr hs
  intro evs
  exact key evs _ (by decide)
